import Mathlib

/-!
Shallow embedding of `pkg/webhooks/scc/scc.go` from
managed-cluster-validating-webhooks: the SCC validating-webhook decision
function (`authorized`), its decoder (`renderSCC`), the predicates
(`isDefaultSCC`, `isSCCwithHigherPriority`, `Validate`) and the descriptor
documentation string (`Doc`).

Modelling notes:
- `securityv1.SecurityContextConstraints` is embedded as `SCC`, keeping only
  the two fields the webhook inspects: `Name` (string) and `Priority`
  (`*int32`, embedded as `Option Int`; no arithmetic is performed on it, only
  comparison, so int32 wrap-around cannot arise).
- The raw payloads `request.Object.Raw` / `request.OldObject.Raw` together
  with the external JSON decoder (`admissionctl.Decoder.DecodeRaw`, which is
  collaborator code, not part of this repository) are embedded as the
  `Payload` type: a payload is empty (zero length), or decodes to a given
  SCC, or fails to decode with a given error message.  `renderSCC` itself —
  the length guards and the error short-circuits — is translated line by
  line from the source.  (`admissionctl.NewDecoder` never returns a non-nil
  error for a non-nil scheme, so that branch is elided.)
- `admissionctl.Response` is embedded as `Response` with the fields the code
  writes: `Allowed`, `Result.Code`, `Result.Reason`, `Result.Message`, `UID`.
  The collaborator constructors are embedded exactly as controller-runtime
  defines them: `Denied reason` is disallowed/403 with the reason set,
  `Allowed reason` is allowed/200, `Errored code err` carries the code and
  the error message; none of the three sets the `UID` field (the source sets
  `ret.UID` explicitly on the branches where it wants it echoed).
- `admissionv1.Operation` is a string type in Kubernetes; it is embedded as
  `String` with the constants `"CREATE"`, `"UPDATE"`, `"DELETE"` used by the
  switch in `authorized`.
-/

/-- The two fields of a SecurityContextConstraints object that the webhook
inspects: `ObjectMeta.Name` and `Priority *int32`. -/
structure SCC where
  name : String
  priority : Option Int
deriving DecidableEq, Repr

/-- The zero value `&securityv1.SecurityContextConstraints{}` that
`renderSCC` starts from: empty name, nil priority. -/
def zeroSCC : SCC := ⟨"", none⟩

/-- A raw admission payload together with the behaviour of the external JSON
decoder on it: zero-length, or decodes to a given SCC, or fails with a given
error message. -/
inductive Payload where
  | empty : Payload
  | valid : SCC → Payload
  | malformed : String → Payload
deriving DecidableEq, Repr

/-- The single error kind at this layer: a decode failure, carrying the
decoder's error message. -/
structure DecodeError where
  msg : String
deriving DecidableEq, Repr

/-- The fields of `admissionctl.Request` that `authorized` and `Validate`
read: operation, UID, requester username, target kind, and the two raw
payloads (`OldObject` = prior state, `Object` = proposed state). -/
structure Request where
  operation : String
  uid : String
  username : String
  kindKind : String
  oldObject : Payload
  object : Payload
deriving DecidableEq, Repr

/-- The fields of `admissionctl.Response` that the code writes: `Allowed`,
`Result.Code`, `Result.Reason`, `Result.Message`, `UID`. -/
structure Response where
  allowed : Bool
  code : Int
  reason : String
  message : String
  uid : String
deriving DecidableEq, Repr

/-- controller-runtime `admission.Denied(reason)`: disallowed, HTTP 403,
reason set, UID not set. -/
def Denied (reason : String) : Response := ⟨false, 403, reason, "", ""⟩

/-- controller-runtime `admission.Allowed(reason)`: allowed, HTTP 200,
reason set, UID not set. -/
def Allowed (reason : String) : Response := ⟨true, 200, reason, "", ""⟩

/-- controller-runtime `admission.Errored(code, err)`: disallowed, the given
HTTP code, `Result.Message = err.Error()`, UID not set. -/
def Errored (code : Int) (err : DecodeError) : Response :=
  ⟨false, code, "", err.msg, ""⟩

/-- `ret.UID = request.AdmissionRequest.UID`: the response with its UID field
overwritten. -/
def withUID (r : Response) (uid : String) : Response :=
  ⟨r.allowed, r.code, r.reason, r.message, uid⟩

/-- The package-level `defaultSCCs` list from scc.go. -/
def defaultSCCs : List String :=
  ["anyuid", "hostaccess", "hostmount-anyuid", "hostnetwork", "node-exporter",
   "nonroot", "privileged", "restricted", "pipelines-scc"]

/-- The package-level `anyuidPriority int32 = 10` ceiling. -/
def anyuidPriority : Int := 10

/-- `isDefaultSCC`: loops over `defaultSCCs` and returns true iff some entry
equals `scc.Name`. -/
def isDefaultSCC (scc : SCC) : Bool :=
  defaultSCCs.any (fun s => scc.name == s)

/-- `isSCCwithHigherPriority`: true iff `scc.Priority != nil` and
`*scc.Priority > anyuidPriority`. -/
def isSCCwithHigherPriority (scc : SCC) : Bool :=
  match scc.priority with
  | some p => p > anyuidPriority
  | none => false

/-- The external `decoder.DecodeRaw` on a payload: succeeds on a payload that
decodes, fails with the decoder's message otherwise (on a zero-length payload
the real decoder fails with "there is no content to decode", but `renderSCC`
never calls it on one). -/
def decodeRaw : Payload → Except DecodeError SCC
  | Payload.empty => Except.error ⟨"there is no content to decode"⟩
  | Payload.valid scc => Except.ok scc
  | Payload.malformed m => Except.error ⟨m⟩

/-- One guarded decode step of `renderSCC`: the target starts as the zero
value and is only decoded into when `len(raw) > 0`. -/
def decodePayload : Payload → Except DecodeError SCC
  | Payload.empty => Except.ok zeroSCC
  | p => decodeRaw p

/-- `renderSCC`: decode the prior object (if non-empty), short-circuiting on
error, then the proposed object (if non-empty), short-circuiting on error. -/
def renderSCC (request : Request) : Except DecodeError (SCC × SCC) :=
  match decodePayload request.oldObject with
  | Except.error e => Except.error e
  | Except.ok oldScc =>
    match decodePayload request.object with
    | Except.error e => Except.error e
    | Except.ok newScc => Except.ok (oldScc, newScc)

/-- `authorized`: render the two SCCs (returning
`admissionctl.Errored(http.StatusBadRequest, err)` on failure), then switch
on the operation: Delete denies default SCCs; Create denies priority above
the ceiling; Update denies default SCCs first, then priority above the
ceiling; every other case falls through to allowed.  Each deny and the final
allow set the response UID from the request. -/
def authorized (request : Request) : Response :=
  match renderSCC request with
  | Except.error err => Errored 400 err
  | Except.ok (oldScc, newScc) =>
    if request.operation = "DELETE" then
      if isDefaultSCC oldScc then
        withUID (Denied "Deleting default SCCs is not allowed") request.uid
      else
        withUID (Allowed "Request is allowed") request.uid
    else if request.operation = "CREATE" then
      if isSCCwithHigherPriority newScc then
        withUID
          (Denied ("Creating SCC with priority higher than " ++
            toString anyuidPriority ++ " is not allowed")) request.uid
      else
        withUID (Allowed "Request is allowed") request.uid
    else if request.operation = "UPDATE" then
      if isDefaultSCC oldScc then
        withUID (Denied "Modifying default SCCs is not allowed") request.uid
      else if isSCCwithHigherPriority newScc then
        withUID
          (Denied ("Updating SCC with priority higher than " ++
            toString anyuidPriority ++ " is not allowed")) request.uid
      else
        withUID (Allowed "Request is allowed") request.uid
    else
      withUID (Allowed "Request is allowed") request.uid

/-- The kind name `Validate` compares against. -/
def expectedKind : String := "SecurityContextConstraint"

/-- `Validate`: valid iff the username is non-empty and the request kind is
exactly `expectedKind`. -/
def Validate (request : Request) : Bool :=
  (request.username != "") && (request.kindKind == expectedKind)

/-- The `docString` template constant from scc.go. -/
def docString : String :=
  "Managed OpenShift Customers may not modify the following default SCCs: %s"

/-- Go's `fmt` rendering of a `[]string` under the `%s` verb:
space-separated elements in square brackets. -/
def goFormatStringSlice (l : List String) : String :=
  "[" ++ String.intercalate " " l ++ "]"

/-- `fmt.Sprintf` restricted to `%s` verbs: each `%s` in the format string is
replaced by the argument. -/
def substPercentS : List Char → String → List Char
  | [], _ => []
  | '%' :: 's' :: rest, arg => arg.data ++ substPercentS rest arg
  | c :: rest, arg => c :: substPercentS rest arg

/-- `fmt.Sprintf(fmt, arg)` for a format string whose only verbs are `%s`. -/
def sprintfS (fmt arg : String) : String :=
  ⟨substPercentS fmt.data arg⟩

/-- `Doc()`: `fmt.Sprintf(docString, defaultSCCs)`. -/
def Doc : String :=
  sprintfS docString (goFormatStringSlice defaultSCCs)

/-- Field update used to state requester-independence: the request with its
username replaced. -/
def setUsername (request : Request) (u : String) : Request :=
  ⟨request.operation, request.uid, u, request.kindKind,
   request.oldObject, request.object⟩

/-- Field update used to state that a decode failure short-circuits the
operation switch: the request with its operation replaced. -/
def setOperation (request : Request) (op : String) : Request :=
  ⟨op, request.uid, request.username, request.kindKind,
   request.oldObject, request.object⟩

/-! ## Helper lemmas -/

/-- `isDefaultSCC` tests exactly membership of the name in `defaultSCCs`. -/
lemma isDefaultSCC_iff (scc : SCC) : isDefaultSCC scc = true ↔ scc.name ∈ defaultSCCs := by
  simp [isDefaultSCC, List.any_eq_true]

/-- `isSCCwithHigherPriority` holds exactly when the priority is present and
above the ceiling. -/
lemma isSCCwithHigherPriority_iff (scc : SCC) :
    isSCCwithHigherPriority scc = true ↔ ∃ p, scc.priority = some p ∧ anyuidPriority < p := by
  cases h : scc.priority with
  | none => simp [isSCCwithHigherPriority, h]
  | some p => simp [isSCCwithHigherPriority, h, decide_eq_true_eq]

/-- The update denial message renders the ceiling as "10". -/
lemma updateDenyMsg :
    ("Updating SCC with priority higher than " ++ toString anyuidPriority ++ " is not allowed") =
    "Updating SCC with priority higher than 10 is not allowed" := rfl

/-- The create denial message renders the ceiling as "10". -/
lemma createDenyMsg :
    ("Creating SCC with priority higher than " ++ toString anyuidPriority ++ " is not allowed") =
    "Creating SCC with priority higher than 10 is not allowed" := rfl

/-! ## Claim theorems -/

/-- C1, counterexample: the claim "the response carries the originating
request's uid regardless of which branch is taken, including decode failure"
is false on the code: on a request whose prior payload fails to decode,
`authorized` returns `admissionctl.Errored(400, err)` without ever setting
`ret.UID`, so the response uid is the empty string, not the request's
"test-uid". -/
theorem decode_failure_uid_counterexample :
    (authorized ⟨"UPDATE", "test-uid", "alice", "SecurityContextConstraint",
      Payload.malformed "unexpected end of JSON input", Payload.empty⟩).uid ≠
    (⟨"UPDATE", "test-uid", "alice", "SecurityContextConstraint",
      Payload.malformed "unexpected end of JSON input", Payload.empty⟩ : Request).uid := by
  decide

/-- C1, amended: the response returned by `authorized` carries the
originating request's uid on every branch where both payloads decode
successfully (the allow branch and all three denial branches); on decode
failure the error response is returned with its uid field unset (empty). -/
theorem uid_echo_amended (request : Request) :
    (authorized request).uid =
      match renderSCC request with
      | Except.ok _ => request.uid
      | Except.error _ => "" := by
  unfold authorized
  cases renderSCC request with
  | error e => rfl
  | ok p =>
    obtain ⟨o, n⟩ := p
    repeat' split
    all_goals simp_all [withUID, Denied, Allowed, Errored]

/-- C2: on an Update request whose payloads decode to `(oldScc, newScc)`,
the default-SCC check runs first: the request is denied with
"Modifying default SCCs is not allowed" iff the prior name is in
`defaultSCCs` (regardless of the proposed priority); only when that check
passes is the request denied with "Updating SCC with priority higher than 10
is not allowed" iff the proposed priority is present and above the ceiling;
otherwise it is allowed. -/
theorem update_checks_order (request : Request) (oldScc newScc : SCC)
    (hop : request.operation = "UPDATE")
    (hr : renderSCC request = Except.ok (oldScc, newScc)) :
    ((authorized request = withUID (Denied "Modifying default SCCs is not allowed") request.uid) ↔
      oldScc.name ∈ defaultSCCs) ∧
    (oldScc.name ∉ defaultSCCs →
      ((authorized request =
          withUID (Denied "Updating SCC with priority higher than 10 is not allowed") request.uid) ↔
        (∃ p, newScc.priority = some p ∧ anyuidPriority < p)) ∧
      ((¬ ∃ p, newScc.priority = some p ∧ anyuidPriority < p) →
        authorized request = withUID (Allowed "Request is allowed") request.uid)) := by
  by_cases hd : isDefaultSCC oldScc
  · have hmem := (isDefaultSCC_iff oldScc).mp hd
    simp [authorized, hr, hop, hd, hmem]
  · have hmem : oldScc.name ∉ defaultSCCs := fun hm => hd ((isDefaultSCC_iff oldScc).mpr hm)
    by_cases hp : isSCCwithHigherPriority newScc
    · have hex := (isSCCwithHigherPriority_iff newScc).mp hp
      simp [authorized, hr, hop, hd, hp, hmem, hex, updateDenyMsg, withUID, Denied, Allowed]
    · have hnex : ¬ ∃ p, newScc.priority = some p ∧ anyuidPriority < p :=
        fun hx => hp ((isSCCwithHigherPriority_iff newScc).mpr hx)
      simp [authorized, hr, hop, hd, hp, hmem, hnex, withUID, Denied, Allowed]

/-- C2, witness: updating the default SCC "restricted" with an in-range
proposed priority (5) is denied as a default-SCC modification. -/
theorem update_checks_order_witness :
    authorized ⟨"UPDATE", "uid-2", "alice", "SecurityContextConstraint",
      Payload.valid ⟨"restricted", none⟩, Payload.valid ⟨"restricted", some 5⟩⟩ =
    withUID (Denied "Modifying default SCCs is not allowed") "uid-2" :=
  (update_checks_order ⟨"UPDATE", "uid-2", "alice", "SecurityContextConstraint",
      Payload.valid ⟨"restricted", none⟩, Payload.valid ⟨"restricted", some 5⟩⟩
    ⟨"restricted", none⟩ ⟨"restricted", some 5⟩ rfl rfl).1.mpr (by decide)

/-- C3: on a Create request whose payloads decode to `(oldScc, newScc)`, the
request is denied with "Creating SCC with priority higher than 10 is not
allowed" iff the proposed priority is present and strictly above the
ceiling; in particular a priority equal to the ceiling is allowed, and an
absent priority is allowed. -/
theorem create_priority_check (request : Request) (oldScc newScc : SCC)
    (hop : request.operation = "CREATE")
    (hr : renderSCC request = Except.ok (oldScc, newScc)) :
    ((authorized request =
        withUID (Denied "Creating SCC with priority higher than 10 is not allowed") request.uid) ↔
      (∃ p, newScc.priority = some p ∧ anyuidPriority < p)) ∧
    (newScc.priority = some anyuidPriority →
      authorized request = withUID (Allowed "Request is allowed") request.uid) ∧
    (newScc.priority = none →
      authorized request = withUID (Allowed "Request is allowed") request.uid) := by
  by_cases hp : isSCCwithHigherPriority newScc
  · have hex := (isSCCwithHigherPriority_iff newScc).mp hp
    refine ⟨by simp [authorized, hr, hop, hp, hex, createDenyMsg], ?_, ?_⟩
    · intro hceil
      exfalso
      obtain ⟨p, hps, hplt⟩ := hex
      rw [hceil] at hps
      injection hps with hpp
      rw [← hpp] at hplt
      exact lt_irrefl _ hplt
    · intro hnone
      exfalso
      obtain ⟨p, hps, hplt⟩ := hex
      rw [hnone] at hps
      exact Option.noConfusion hps
  · have hnex : ¬ ∃ p, newScc.priority = some p ∧ anyuidPriority < p :=
      fun hx => hp ((isSCCwithHigherPriority_iff newScc).mpr hx)
    simp [authorized, hr, hop, hp, hnex, withUID, Denied, Allowed]

/-- C3, witness: creating an SCC with priority 15 (above the ceiling 10) is
denied with the create-priority reason. -/
theorem create_priority_check_witness :
    authorized ⟨"CREATE", "uid-3", "alice", "SecurityContextConstraint",
      Payload.empty, Payload.valid ⟨"custom", some 15⟩⟩ =
    withUID (Denied "Creating SCC with priority higher than 10 is not allowed") "uid-3" :=
  (create_priority_check ⟨"CREATE", "uid-3", "alice", "SecurityContextConstraint",
      Payload.empty, Payload.valid ⟨"custom", some 15⟩⟩
    zeroSCC ⟨"custom", some 15⟩ rfl rfl).1.mpr ⟨15, rfl, by decide⟩

/-- C4: on a Delete request whose payloads decode to `(oldScc, newScc)`, the
request is denied with "Deleting default SCCs is not allowed" iff the prior
name is a member of `defaultSCCs`; for any other prior name it is allowed. -/
theorem delete_default_check (request : Request) (oldScc newScc : SCC)
    (hop : request.operation = "DELETE")
    (hr : renderSCC request = Except.ok (oldScc, newScc)) :
    ((authorized request = withUID (Denied "Deleting default SCCs is not allowed") request.uid) ↔
      oldScc.name ∈ defaultSCCs) ∧
    (oldScc.name ∉ defaultSCCs →
      authorized request = withUID (Allowed "Request is allowed") request.uid) := by
  by_cases hd : isDefaultSCC oldScc
  · have hmem := (isDefaultSCC_iff oldScc).mp hd
    simp [authorized, hr, hop, hd, hmem]
  · have hmem : oldScc.name ∉ defaultSCCs := fun hm => hd ((isDefaultSCC_iff oldScc).mpr hm)
    simp [authorized, hr, hop, hd, hmem, withUID, Denied, Allowed]

/-- C4, witness: deleting the default SCC "privileged" is denied. -/
theorem delete_default_check_witness :
    authorized ⟨"DELETE", "uid-4", "alice", "SecurityContextConstraint",
      Payload.valid ⟨"privileged", none⟩, Payload.empty⟩ =
    withUID (Denied "Deleting default SCCs is not allowed") "uid-4" :=
  (delete_default_check ⟨"DELETE", "uid-4", "alice", "SecurityContextConstraint",
      Payload.valid ⟨"privileged", none⟩, Payload.empty⟩
    ⟨"privileged", none⟩ zeroSCC rfl rfl).1.mpr (by decide)

/-- C5: `Validate` returns true iff the requester username is non-empty and
the request kind equals the expected kind name "SecurityContextConstraint"
exactly. -/
theorem validate_iff (request : Request) :
    Validate request = true ↔ (request.username ≠ "" ∧ request.kindKind = expectedKind) := by
  simp [Validate]

/-- C6: when a payload fails to decode, `authorized` returns the 400 error
response (a rejected request, not an allow/deny policy decision: it differs
from every `Denied` and every `Allowed` response), and the policy switch is
never consulted: the result is the same whatever the request's operation. -/
theorem decode_error_short_circuits (request : Request) (e : DecodeError)
    (hr : renderSCC request = Except.error e) :
    authorized request = Errored 400 e ∧
    (authorized request).allowed = false ∧
    (authorized request).code = 400 ∧
    (∀ reason uid, authorized request ≠ withUID (Denied reason) uid ∧
      authorized request ≠ withUID (Allowed reason) uid) ∧
    (∀ op, authorized (setOperation request op) = Errored 400 e) := by
  have hbase : authorized request = Errored 400 e := by simp [authorized, hr]
  have hop : ∀ op, renderSCC (setOperation request op) = renderSCC request := fun _ => rfl
  refine ⟨hbase, by simp [hbase, Errored], by simp [hbase, Errored], ?_, ?_⟩
  · intro reason uid
    constructor
    · intro hcontra
      rw [hbase] at hcontra
      simp [Errored, withUID, Denied] at hcontra
    · intro hcontra
      rw [hbase] at hcontra
      simp [Errored, withUID, Allowed] at hcontra
  · intro op
    simp [authorized, hop, hr]

/-- C6, witness: a request with a malformed prior payload yields the 400
error response carrying the decoder's message. -/
theorem decode_error_short_circuits_witness :
    authorized ⟨"CREATE", "uid-6", "alice", "SecurityContextConstraint",
      Payload.malformed "unexpected end of JSON input", Payload.empty⟩ =
    Errored 400 ⟨"unexpected end of JSON input"⟩ :=
  (decode_error_short_circuits ⟨"CREATE", "uid-6", "alice", "SecurityContextConstraint",
      Payload.malformed "unexpected end of JSON input", Payload.empty⟩
    ⟨"unexpected end of JSON input"⟩ rfl).1

/-- C7: decoding a zero-length payload never produces a decode error and
yields the zero-valued SCC record (empty name, absent priority), in either
the prior or the proposed position of `renderSCC`; and the zero-valued
record never triggers the default-SCC denial, since the empty name is not a
member of `defaultSCCs`. -/
theorem empty_payload_zero_record :
    decodePayload Payload.empty = Except.ok zeroSCC ∧
    zeroSCC.name = "" ∧ zeroSCC.priority = none ∧
    isDefaultSCC zeroSCC = false ∧
    (∀ op uid user kind, renderSCC ⟨op, uid, user, kind, Payload.empty, Payload.empty⟩ =
      Except.ok (zeroSCC, zeroSCC)) ∧
    (∀ op uid user kind scc, renderSCC ⟨op, uid, user, kind, Payload.empty, Payload.valid scc⟩ =
      Except.ok (zeroSCC, scc)) ∧
    (∀ op uid user kind scc, renderSCC ⟨op, uid, user, kind, Payload.valid scc, Payload.empty⟩ =
      Except.ok (scc, zeroSCC)) :=
  ⟨rfl, rfl, rfl, by decide, fun _ _ _ _ => rfl, fun _ _ _ _ _ => rfl, fun _ _ _ _ _ => rfl⟩

/-- C8: on a request whose operation is none of CREATE, UPDATE or DELETE and
whose payloads decode successfully, `authorized` falls through the switch
and allows, applying no denial rule. -/
theorem other_operations_allowed (request : Request) (oldScc newScc : SCC)
    (hr : renderSCC request = Except.ok (oldScc, newScc))
    (h1 : request.operation ≠ "CREATE") (h2 : request.operation ≠ "UPDATE")
    (h3 : request.operation ≠ "DELETE") :
    authorized request = withUID (Allowed "Request is allowed") request.uid := by
  simp [authorized, hr, h1, h2, h3]

/-- C8, witness: a CONNECT request is allowed. -/
theorem other_operations_allowed_witness :
    authorized ⟨"CONNECT", "uid-8", "alice", "SecurityContextConstraint",
      Payload.empty, Payload.empty⟩ =
    withUID (Allowed "Request is allowed") "uid-8" :=
  other_operations_allowed ⟨"CONNECT", "uid-8", "alice", "SecurityContextConstraint",
      Payload.empty, Payload.empty⟩
    zeroSCC zeroSCC rfl (by decide) (by decide) (by decide)

set_option maxRecDepth 8192 in
/-- C9: the descriptor documentation is the `docString` template
instantiated with the very `defaultSCCs` list whose membership
`isDefaultSCC` tests in the Delete and Update denial branches, and it
therefore lists exactly those nine names. -/
theorem doc_lists_default_sccs :
    (∀ scc : SCC, (isDefaultSCC scc = true ↔ scc.name ∈ defaultSCCs)) ∧
    Doc = sprintfS docString (goFormatStringSlice defaultSCCs) ∧
    Doc = "Managed OpenShift Customers may not modify the following default SCCs: [anyuid hostaccess hostmount-anyuid hostnetwork node-exporter nonroot privileged restricted pipelines-scc]" :=
  ⟨isDefaultSCC_iff, rfl, by decide⟩

/-- C10: the admission decision is independent of the requester identity:
two requests differing only in the username get identical responses from
`authorized`, while `Validate` does consult the username. -/
theorem username_independence (request : Request) (u1 u2 : String) :
    authorized (setUsername request u1) = authorized (setUsername request u2) ∧
    Validate (setUsername request u1) = ((u1 != "") && (request.kindKind == expectedKind)) :=
  ⟨rfl, rfl⟩
